import Mathlib

/-!
Shallow embedding of the database-configuration table backend
(`src/clustering/administration/tables/db_config.cc`) of the rethinkdb
repository: the row projection (`convert_db_config_and_name_to_datum` /
`convert_db_config_and_name_from_datum`) and the artificial-table backend
operations `read_row` and `write_row` over the databases semilattice
metadata map.  Collaborators that live outside the repository snapshot
(the datum/uuid/name adapters, `search_metadata_by_uuid`, `db_drop_uuid`)
are modelled from the specification and marked as such.
-/

/-- Query state classification carried by an admin error
(`query_state_t` in the source: `FAILED` or `INDETERMINATE`). -/
inductive query_state_t where
  | failed
  | indeterminate
deriving DecidableEq, Repr

/-- `admin_err_t`: a user-facing error message plus its query state. -/
structure admin_err_t where
  msg : String
  query_state : query_state_t
deriving DecidableEq, Repr

/-- A ReQL datum (`ql::datum_t`), restricted to the shapes that the
db_config backend manipulates: null (the "absent row" value), strings,
and objects given as association lists of fields. -/
inductive datum_t where
  | null
  | str (s : String)
  | obj (fields : List (String × datum_t))

/-- Modelled from the spec: the name grammar validator collaborator —
a `Name` is non-empty, of bounded length, over a specific character set
(alphanumerics and underscores). -/
def name_string_valid (s : String) : Bool :=
  !s.isEmpty && s.length ≤ 64 && s.data.all (fun c => c.isAlphanum || c == '_')

/-- Modelled from the spec: the identifier codec collaborator,
`format(Identifier) -> string`.  Identifiers are 128-bit opaque tokens,
modelled as natural numbers and textually encoded (decimal digits,
most significant first). -/
def uuid_to_string (u : Nat) : String :=
  String.mk ((Nat.digits 10 u).reverse.map (fun d => Char.ofNat (48 + d)))

/-- A decimal digit character, used by the identifier codec model. -/
def is_digit_char (c : Char) : Bool :=
  48 ≤ c.toNat && c.toNat ≤ 57

/-- Modelled from the spec: the identifier codec collaborator,
`parse(string) -> Identifier | error`.  Accepts exactly the all-digit
strings; anything else is a parse failure. -/
def string_to_uuid (s : String) : Option Nat :=
  if s.data.all is_digit_char then
    some (Nat.ofDigits 10 ((s.data.map (fun c => c.toNat - 48)).reverse))
  else
    none

/-- The nil UUID (`nil_uuid()`), the all-zero identifier. -/
def nil_uuid : Nat := 0

/-- Modelled from the spec: `convert_name_to_datum` of the datum adapter —
a name is encoded as a string datum. -/
def convert_name_to_datum (db_name : String) : datum_t :=
  .str db_name

/-- Modelled from the spec: `convert_name_from_datum` of the datum adapter —
the datum must be a string satisfying the name grammar; `what` names the
kind of entity for the error message. -/
def convert_name_from_datum (datum : datum_t) (what : String) :
    Except admin_err_t String :=
  match datum with
  | .str s =>
    if name_string_valid s then
      .ok s
    else
      .error ⟨"Expected a " ++ what ++ "; got `" ++ s ++ "`.",
              query_state_t.failed⟩
  | _ => .error ⟨"Expected a " ++ what ++ "; got a non-string datum.",
                 query_state_t.failed⟩

/-- Modelled from the spec: `convert_uuid_to_datum` of the datum adapter —
an identifier is encoded as a string datum. -/
def convert_uuid_to_datum (u : Nat) : datum_t :=
  .str (uuid_to_string u)

/-- Modelled from the spec: `convert_uuid_from_datum` of the datum adapter —
the datum must be a string that parses under the identifier codec. -/
def convert_uuid_from_datum (datum : datum_t) : Except admin_err_t Nat :=
  match datum with
  | .str s =>
    match string_to_uuid s with
    | some u => .ok u
    | none => .error ⟨"Expected a UUID; got `" ++ s ++ "`.",
                      query_state_t.failed⟩
  | _ => .error ⟨"Expected a UUID; got a non-string datum.",
                 query_state_t.failed⟩

/-- Modelled from the spec: a Versioned Field — a value plus a monotonic
version counter (`versioned_t<T>` of the semilattice metadata). -/
structure versioned_t (α : Type) where
  value : α
  version : Nat
deriving DecidableEq, Repr

/-- Modelled from the spec: `versioned_t::set` assigns a new value under a
strictly larger version. -/
def versioned_t.set {α : Type} (v : versioned_t α) (a : α) : versioned_t α :=
  ⟨a, v.version + 1⟩

/-- Modelled from the spec: a Deletable Record (`deletable_t<T>`) —
either `present` holding a payload or a tombstone (`deleted`). -/
inductive deletable_t (α : Type) where
  | present (a : α)
  | deleted
deriving DecidableEq, Repr

/-- `deletable_t::is_deleted`. -/
def deletable_t.is_deleted {α : Type} : deletable_t α → Bool
  | .present _ => false
  | .deleted => true

/-- `database_semilattice_metadata_t`: the payload of one database record,
a versioned name field. -/
structure database_semilattice_metadata_t where
  name : versioned_t String
deriving DecidableEq, Repr

/-- The `databases` map of `databases_semilattice_metadata_t`:
identifier to deletable database record, as an association list. -/
abbrev databases_t := List (Nat × deletable_t database_semilattice_metadata_t)

/-- Lookup of a key in the databases map (`std::map::find`): the first
entry with the given identifier, if any. -/
def db_lookup (m : databases_t) (id : Nat) :
    Option (deletable_t database_semilattice_metadata_t) :=
  (m.find? (fun p => p.1 == id)).map Prod.snd

/-- `std::map::count` on the databases map: 1 when the identifier is
mapped (Present or Tombstone), 0 otherwise. -/
def db_count (m : databases_t) (id : Nat) : Nat :=
  match db_lookup m id with
  | some _ => 1
  | none => 0

/-- Modelled from the spec: `search_metadata_by_uuid` — the identifier
"currently maps to a Present record": returns the payload when the key is
mapped and not deleted, and nothing otherwise. -/
def search_metadata_by_uuid (m : databases_t) (id : Nat) :
    Option database_semilattice_metadata_t :=
  match db_lookup m id with
  | some (.present x) => some x
  | _ => none

/-- Pointwise update of the entry at a key of the databases map
(the mutation performed through the iterator returned by
`search_metadata_by_uuid`, or `md.databases[id] = ...` on a mapped key). -/
def db_update (m : databases_t) (id : Nat)
    (f : deletable_t database_semilattice_metadata_t →
         deletable_t database_semilattice_metadata_t) : databases_t :=
  m.map (fun p => if p.1 == id then (p.1, f p.2) else p)

/-- `convert_db_config_and_name_to_datum`: build the row object with the
`name` field and the `id` field (lines 9-16 of db_config.cc). -/
def convert_db_config_and_name_to_datum (db_name : String) (id : Nat) :
    datum_t :=
  .obj [("name", convert_name_to_datum db_name),
        ("id", convert_uuid_to_datum id)]

/-- Field lookup in a datum object (`converter_from_datum_object_t::get`
finds the field with the given key). -/
def obj_get (fields : List (String × datum_t)) (key : String) :
    Option datum_t :=
  (fields.find? (fun p => p.1 == key)).map Prod.snd

/-- `convert_db_config_and_name_from_datum` (lines 18-55 of db_config.cc):
the datum must be an object; its `name` field must parse under the name
grammar, its `id` field under the identifier codec, and no field other
than `name` and `id` may be present. -/
def convert_db_config_and_name_from_datum (datum : datum_t) :
    Except admin_err_t (String × Nat) :=
  match datum with
  | .obj fields =>
    match obj_get fields "name" with
    | none => .error ⟨"expected a field named `name`", query_state_t.failed⟩
    | some name_datum =>
      match convert_name_from_datum name_datum "db name" with
      | .error e => .error ⟨"In `name`: " ++ e.msg, e.query_state⟩
      | .ok db_name =>
        match obj_get fields "id" with
        | none => .error ⟨"expected a field named `id`", query_state_t.failed⟩
        | some id_datum =>
          match convert_uuid_from_datum id_datum with
          | .error e => .error ⟨"In `id`: " ++ e.msg, e.query_state⟩
          | .ok id =>
            if fields.all (fun p => p.1 == "name" || p.1 == "id") then
              .ok (db_name, id)
            else
              .error ⟨"unexpected key(s)", query_state_t.failed⟩
  | _ => .error ⟨"Expected an object", query_state_t.failed⟩

/-- Resolution of a primary-key datum to a database identifier, shared
verbatim by `read_row` (lines 101-107) and `write_row` (lines 129-135):
if the primary key is not a valid UUID "then it must refer to a
nonexistent row" and the nil UUID is used instead. -/
def resolve_primary_key (primary_key : datum_t) : Nat :=
  match convert_uuid_from_datum primary_key with
  | .ok u => u
  | .error _ => nil_uuid

/-- `db_config_artificial_table_backend_t::read_row` (lines 94-116):
resolve the primary key, look the identifier up in a snapshot of the
databases map, and return the projected row when Present, the absent
datum otherwise.  The C++ function always returns `true`; the row output
is modelled as `some row` / `none` for `ql::datum_t()` (absent). -/
def read_row (databases : databases_t) (primary_key : datum_t) :
    Option datum_t :=
  match search_metadata_by_uuid databases (resolve_primary_key primary_key) with
  | some x => some (convert_db_config_and_name_to_datum x.name.value
      (resolve_primary_key primary_key))
  | none => none

/-- Outcome of a backend call: a normal return, a `guarantee` failure
(a fatal invariant violation that aborts the process), or propagation of
`interrupted_exc_t` (cancellation). -/
inductive outcome_t (α : Type) where
  | ok (a : α)
  | crashed (msg : String)
  | interrupted
deriving DecidableEq, Repr

/-- Result of a `write_row` call that returned normally: the C++ return
value, the contents of `*error_out` when an error message was written,
and the databases map after `database_sl_view->join(md)`. -/
structure write_result_t where
  ret : Bool
  err : Option admin_err_t
  databases : databases_t
deriving DecidableEq, Repr

/-- Modelled from the spec: behaviour of one call to the cascading-drop
collaborator `db_drop_uuid` — it succeeds, fails with an error, or is
cancelled mid-flight. -/
inductive drop_outcome_t where
  | success
  | failure (e : admin_err_t)
  | interrupted
deriving DecidableEq, Repr

/-- Modelled from the spec: the effect of a successful `db_drop_uuid` on
the shared databases map — the cascading drop marks the record for the
identifier as a Tombstone (deleted). -/
def db_drop_uuid_effect (m : databases_t) (id : Nat) : databases_t :=
  db_update m id (fun _ => .deleted)

/-- The name-collision scan of `write_row` (lines 192-216): some
non-deleted record of the snapshot carries the given name. -/
def db_name_in_use (databases : databases_t) (n : String) : Bool :=
  databases.any (fun p =>
    !p.2.is_deleted &&
    (match p.2 with
     | .present y => y.name.value == n
     | .deleted => false))

/-- `db_config_artificial_table_backend_t::write_row`
(lines 118-249 of db_config.cc), with the behaviour of the
`db_drop_uuid` collaborator supplied as the `drop` argument.
Faithful points to note against the source:
* `new_database_id == database_id`, `!pkey_was_autogenerated` on an
  existing record, and `md.databases.count(database_id) == 0` on the
  create path are `guarantee`s: their violation is `crashed`, not a
  user error;
* the name checks run only when `!existed_before || new_db_name !=
  old_db_name`;
* on the delete branch the boolean result of `db_drop_uuid` is
  discarded by the source: after the call the function falls through to
  `database_sl_view->join(md)` and `return true`, even when the
  collaborator reported a failure into `*error_out`.  Cancellation, by
  contrast, propagates as an exception. -/
def write_row (drop : drop_outcome_t) (databases : databases_t)
    (primary_key : datum_t) (pkey_was_autogenerated : Bool)
    (new_value : Option datum_t) : outcome_t write_result_t :=
  let database_id := resolve_primary_key primary_key
  match new_value with
  | some v =>
    match convert_db_config_and_name_from_datum v with
    | .error e =>
      .ok ⟨false,
           some ⟨"The change you\x27re trying to make to " ++
                 "`rethinkdb.db_config` has the wrong format. " ++ e.msg,
                 e.query_state⟩,
           databases⟩
    | .ok (new_db_name, new_database_id) =>
      if new_database_id ≠ database_id then
        .crashed ("artificial_table_t should ensure " ++
                  "that the primary key doesn\x27t change.")
      else
        match search_metadata_by_uuid databases database_id with
        | some x =>
          if pkey_was_autogenerated then
            .crashed "UUID collision happened"
          else
            let old_db_name := x.name.value
            if new_db_name ≠ old_db_name then
              if new_db_name = "rethinkdb" then
                .ok ⟨false,
                     some ⟨"Cannot rename database `" ++ old_db_name ++
                           "` to `rethinkdb` because database " ++
                           "`rethinkdb` already exists.",
                           query_state_t.failed⟩,
                     databases⟩
              else if db_name_in_use databases new_db_name then
                .ok ⟨false,
                     some ⟨"Cannot rename database `" ++ old_db_name ++
                           "` to `" ++ new_db_name ++
                           "` because database `" ++ new_db_name ++
                           "` already exists.",
                           query_state_t.failed⟩,
                     databases⟩
              else
                .ok ⟨true, none,
                     db_update databases database_id (fun d =>
                       match d with
                       | .present y => .present ⟨y.name.set new_db_name⟩
                       | .deleted => .deleted)⟩
            else
              .ok ⟨true, none,
                   db_update databases database_id (fun d =>
                     match d with
                     | .present y => .present ⟨y.name.set new_db_name⟩
                     | .deleted => .deleted)⟩
        | none =>
          if !pkey_was_autogenerated then
            .ok ⟨false,
                 some ⟨"If you want to create a new table by inserting into " ++
                       "`rethinkdb.db_config`, you must use an " ++
                       "auto-generated primary key.",
                       query_state_t.failed⟩,
                 databases⟩
          else if db_count databases database_id ≠ 0 then
            .crashed "UUID collision happened"
          else
            if new_db_name = "rethinkdb" then
              .ok ⟨false,
                   some ⟨"Database `rethinkdb` already exists.",
                         query_state_t.failed⟩,
                   databases⟩
            else if db_name_in_use databases new_db_name then
              .ok ⟨false,
                   some ⟨"Database `" ++ new_db_name ++ "` already exists.",
                         query_state_t.failed⟩,
                   databases⟩
            else
              .ok ⟨true, none,
                   databases ++ [(database_id,
                     .present ⟨⟨new_db_name, 0⟩⟩)]⟩
  | none =>
    match search_metadata_by_uuid databases database_id with
    | some _ =>
      if pkey_was_autogenerated then
        .crashed "UUID collision happened"
      else
        match drop with
        | .interrupted => .interrupted
        | .failure e => .ok ⟨true, some e, databases⟩
        | .success => .ok ⟨true, none, db_drop_uuid_effect databases database_id⟩
    | none => .ok ⟨true, none, databases⟩

/-- A concrete one-database map used by evaluation theorems: the
identifier 1 maps to a Present record named `alpha`. -/
def db_alpha : databases_t := [(1, .present ⟨⟨"alpha", 0⟩⟩)]

/-- C7: a `write_row` delete (absent new value) whose identifier does not
map to an existing Present record succeeds as a no-op: it returns `true`
with no error, invokes no collaborator (the result is the same for every
behaviour of `db_drop_uuid`), and leaves the databases map unchanged. -/
theorem write_row_delete_missing_noop (drop : drop_outcome_t)
    (databases : databases_t) (primary_key : datum_t)
    (pkey_was_autogenerated : Bool)
    (h : search_metadata_by_uuid databases
      (resolve_primary_key primary_key) = none) :
    write_row drop databases primary_key pkey_was_autogenerated none =
      .ok ⟨true, none, databases⟩ := by
  simp [write_row, h]

/-- Witness for C7: deleting the never-mapped key `7` from the concrete
map `db_alpha` succeeds as a no-op, even for a collaborator that would be
interrupted if it were invoked. -/
theorem write_row_delete_missing_noop_witness :
    search_metadata_by_uuid db_alpha (resolve_primary_key (.str "7")) = none ∧
    write_row .interrupted db_alpha (.str "7") true none =
      .ok ⟨true, none, db_alpha⟩ :=
  ⟨by decide,
   write_row_delete_missing_noop .interrupted db_alpha (.str "7") true
     (by decide)⟩

/-- C3: a `write_row` create (present new value, identifier not mapped to
a Present record) with `pkey_was_autogenerated = false` fails with the
recoverable auto-generated-primary-key error, and no record is created
(the databases map of the result is the unchanged input map). -/
theorem write_row_create_requires_autogen (drop : drop_outcome_t)
    (databases : databases_t) (primary_key v : datum_t) (n : String)
    (h1 : convert_db_config_and_name_from_datum v =
      .ok (n, resolve_primary_key primary_key))
    (h2 : search_metadata_by_uuid databases
      (resolve_primary_key primary_key) = none) :
    write_row drop databases primary_key false (some v) =
      .ok ⟨false,
           some ⟨"If you want to create a new table by inserting into " ++
                 "`rethinkdb.db_config`, you must use an " ++
                 "auto-generated primary key.",
                 query_state_t.failed⟩,
           databases⟩ := by
  simp [write_row, h1, h2]

/-- Witness for C3: inserting `{id: 5, name: alpha}` under the
non-auto-generated key `5` into the empty map fails with the
auto-generated-key error and creates nothing. -/
theorem write_row_create_requires_autogen_witness :
    convert_db_config_and_name_from_datum
      (.obj [("name", .str "alpha"), ("id", .str "5")]) =
      .ok ("alpha", resolve_primary_key (.str "5")) ∧
    search_metadata_by_uuid [] (resolve_primary_key (.str "5")) = none ∧
    write_row .success [] (.str "5") false
      (some (.obj [("name", .str "alpha"), ("id", .str "5")])) =
      .ok ⟨false,
           some ⟨"If you want to create a new table by inserting into " ++
                 "`rethinkdb.db_config`, you must use an " ++
                 "auto-generated primary key.",
                 query_state_t.failed⟩,
           []⟩ :=
  ⟨rfl, by decide,
   write_row_create_requires_autogen .success [] (.str "5")
     (.obj [("name", .str "alpha"), ("id", .str "5")]) "alpha"
     rfl (by decide)⟩

/-- C5: a no-op rename — updating an existing Present record with a new
name equal to its current name — succeeds: `write_row` returns `true`
with no error (neither the reserved-name check nor the duplicate-name
scan runs), re-versioning the record's name field in place. -/
theorem write_row_noop_rename (drop : drop_outcome_t)
    (databases : databases_t) (primary_key v : datum_t)
    (x : database_semilattice_metadata_t)
    (h1 : convert_db_config_and_name_from_datum v =
      .ok (x.name.value, resolve_primary_key primary_key))
    (h2 : search_metadata_by_uuid databases
      (resolve_primary_key primary_key) = some x) :
    write_row drop databases primary_key false (some v) =
      .ok ⟨true, none,
           db_update databases (resolve_primary_key primary_key) (fun d =>
             match d with
             | .present y => .present ⟨y.name.set x.name.value⟩
             | .deleted => .deleted)⟩ := by
  simp [write_row, h1, h2]

/-- Witness for C5: rewriting the record of `db_alpha` with its current
name `alpha` succeeds even though the name `alpha` is already in use (by
the record itself). -/
theorem write_row_noop_rename_witness :
    convert_db_config_and_name_from_datum
      (.obj [("name", .str "alpha"), ("id", .str "1")]) =
      .ok ("alpha", resolve_primary_key (.str "1")) ∧
    search_metadata_by_uuid db_alpha (resolve_primary_key (.str "1")) =
      some ⟨⟨"alpha", 0⟩⟩ ∧
    db_name_in_use db_alpha "alpha" = true ∧
    write_row .success db_alpha (.str "1")
      false (some (.obj [("name", .str "alpha"), ("id", .str "1")])) =
      .ok ⟨true, none, [(1, .present ⟨⟨"alpha", 1⟩⟩)]⟩ :=
  ⟨rfl, by decide, by decide, by
    have h := write_row_noop_rename .success db_alpha (.str "1")
      (.obj [("name", .str "alpha"), ("id", .str "1")]) ⟨⟨"alpha", 0⟩⟩
      rfl (by decide)
    rw [h]; decide⟩

/-- C1 (code evaluation at the failing input): on the delete branch for
an existing Present record, when the `db_drop_uuid` collaborator fails
with an error, `write_row` still returns `true` — the source discards
the collaborator's boolean result — while the record remains Present and
`read_row` still returns it.  (Cancellation, by contrast, does abort the
call.) -/
theorem write_row_drop_failure_reports_success :
    write_row (.failure ⟨"drop failed", query_state_t.indeterminate⟩)
      db_alpha (.str "1") false none =
      .ok ⟨true, some ⟨"drop failed", query_state_t.indeterminate⟩,
           db_alpha⟩ ∧
    read_row db_alpha (.str "1") =
      some (convert_db_config_and_name_to_datum "alpha" 1) ∧
    write_row .interrupted db_alpha (.str "1") false none =
      .interrupted := by
  refine ⟨by decide, rfl, by decide⟩

/-- C8: the fatal (guarantee) cases of the create/update branch abort via
a hard crash rather than a recoverable error: (1) an embedded row
identifier differing from the resolved primary key; (2) an auto-generated
flag on a write whose identifier maps to a Present record; (3) a create
(auto-generated) whose identifier is already mapped — necessarily to a
Tombstone, since a Present mapping was excluded by (2)'s branch. -/
theorem write_row_fatal_invariants :
    (∀ (drop : drop_outcome_t) (databases : databases_t)
       (primary_key v : datum_t) (ag : Bool) (n : String) (i : Nat),
       convert_db_config_and_name_from_datum v = .ok (n, i) →
       i ≠ resolve_primary_key primary_key →
       write_row drop databases primary_key ag (some v) =
         .crashed ("artificial_table_t should ensure " ++
                   "that the primary key doesn\x27t change.")) ∧
    (∀ (drop : drop_outcome_t) (databases : databases_t)
       (primary_key v : datum_t) (n : String)
       (x : database_semilattice_metadata_t),
       convert_db_config_and_name_from_datum v =
         .ok (n, resolve_primary_key primary_key) →
       search_metadata_by_uuid databases
         (resolve_primary_key primary_key) = some x →
       write_row drop databases primary_key true (some v) =
         .crashed "UUID collision happened") ∧
    (∀ (drop : drop_outcome_t) (databases : databases_t)
       (primary_key v : datum_t) (n : String),
       convert_db_config_and_name_from_datum v =
         .ok (n, resolve_primary_key primary_key) →
       search_metadata_by_uuid databases
         (resolve_primary_key primary_key) = none →
       db_count databases (resolve_primary_key primary_key) ≠ 0 →
       write_row drop databases primary_key true (some v) =
         .crashed "UUID collision happened") := by
  refine ⟨?_, ?_, ?_⟩
  · intro drop databases primary_key v ag n i h1 h2
    simp [write_row, h1, h2]
  · intro drop databases primary_key v n x h1 h2
    simp [write_row, h1, h2]
  · intro drop databases primary_key v n h1 h2 h3
    simp [write_row, h1, h2, h3]

/-- Witness for C8: the three fatal cases at concrete inputs — an
embedded id `2` under primary key `1`; an auto-generated write over the
Present record of `db_alpha`; an auto-generated create over a map whose
only entry for the key is a Tombstone. -/
theorem write_row_fatal_invariants_witness :
    write_row .success db_alpha (.str "1") false
      (some (.obj [("name", .str "beta"), ("id", .str "2")])) =
      .crashed ("artificial_table_t should ensure " ++
                "that the primary key doesn\x27t change.") ∧
    write_row .success db_alpha (.str "1") true
      (some (.obj [("name", .str "beta"), ("id", .str "1")])) =
      .crashed "UUID collision happened" ∧
    write_row .success [(1, .deleted)] (.str "1") true
      (some (.obj [("name", .str "beta"), ("id", .str "1")])) =
      .crashed "UUID collision happened" := by
  refine ⟨?_, ?_, ?_⟩
  · exact write_row_fatal_invariants.1 .success db_alpha (.str "1")
      (.obj [("name", .str "beta"), ("id", .str "2")]) false "beta" 2
      rfl (by decide)
  · exact write_row_fatal_invariants.2.1 .success db_alpha (.str "1")
      (.obj [("name", .str "beta"), ("id", .str "1")]) "beta" ⟨⟨"alpha", 0⟩⟩
      rfl (by decide)
  · exact write_row_fatal_invariants.2.2 .success [(1, .deleted)] (.str "1")
      (.obj [("name", .str "beta"), ("id", .str "1")]) "beta"
      rfl (by decide) (by decide)
/-- C2: the duplicate-name rejection of `write_row`.  On a creation
(identifier not mapped, auto-generated key), or on a rename to a name
that differs from the record's current name, a Present, non-deleted
record already carrying that (non-reserved) name makes `write_row`
return `false` with the context-specific message, leaving the databases
map unchanged. -/
theorem write_row_duplicate_name :
    (∀ (drop : drop_outcome_t) (databases : databases_t)
       (primary_key v : datum_t) (n : String),
       convert_db_config_and_name_from_datum v =
         .ok (n, resolve_primary_key primary_key) →
       search_metadata_by_uuid databases
         (resolve_primary_key primary_key) = none →
       db_count databases (resolve_primary_key primary_key) = 0 →
       n ≠ "rethinkdb" →
       db_name_in_use databases n = true →
       write_row drop databases primary_key true (some v) =
         .ok ⟨false,
              some ⟨"Database `" ++ n ++ "` already exists.",
                    query_state_t.failed⟩,
              databases⟩) ∧
    (∀ (drop : drop_outcome_t) (databases : databases_t)
       (primary_key v : datum_t) (n : String)
       (x : database_semilattice_metadata_t),
       convert_db_config_and_name_from_datum v =
         .ok (n, resolve_primary_key primary_key) →
       search_metadata_by_uuid databases
         (resolve_primary_key primary_key) = some x →
       n ≠ x.name.value →
       n ≠ "rethinkdb" →
       db_name_in_use databases n = true →
       write_row drop databases primary_key false (some v) =
         .ok ⟨false,
              some ⟨"Cannot rename database `" ++ x.name.value ++
                    "` to `" ++ n ++ "` because database `" ++ n ++
                    "` already exists.",
                    query_state_t.failed⟩,
              databases⟩) := by
  constructor
  · intro drop databases primary_key v n h1 h2 h3 h4 h5
    simp [write_row, h1, h2, h3, h4, h5]
  · intro drop databases primary_key v n x h1 h2 h3 h4 h5
    simp [write_row, h1, h2, h3, h4, h5]

/-- Witness for C2: creating a second database named `alpha` next to
`db_alpha` fails with the creation message; renaming a database `beta`
to `alpha` fails with the rename message.  Both leave the map as it
was. -/
theorem write_row_duplicate_name_witness :
    write_row .success db_alpha (.str "2") true
      (some (.obj [("name", .str "alpha"), ("id", .str "2")])) =
      .ok ⟨false,
           some ⟨"Database `" ++ "alpha" ++ "` already exists.",
                 query_state_t.failed⟩,
           db_alpha⟩ ∧
    write_row .success (db_alpha ++ [(2, .present ⟨⟨"beta", 0⟩⟩)])
      (.str "2") false
      (some (.obj [("name", .str "alpha"), ("id", .str "2")])) =
      .ok ⟨false,
           some ⟨"Cannot rename database `" ++ "beta" ++
                 "` to `" ++ "alpha" ++ "` because database `" ++
                 "alpha" ++ "` already exists.",
                 query_state_t.failed⟩,
           db_alpha ++ [(2, .present ⟨⟨"beta", 0⟩⟩)]⟩ := by
  constructor
  · exact write_row_duplicate_name.1 .success db_alpha (.str "2")
      (.obj [("name", .str "alpha"), ("id", .str "2")]) "alpha"
      rfl (by decide) (by decide) (by decide) (by decide)
  · exact write_row_duplicate_name.2 .success
      (db_alpha ++ [(2, .present ⟨⟨"beta", 0⟩⟩)]) (.str "2")
      (.obj [("name", .str "alpha"), ("id", .str "2")]) "alpha"
      ⟨⟨"beta", 0⟩⟩ rfl (by decide) (by decide) (by decide) (by decide)

/-- No Present record of the databases map carries the reserved name
`rethinkdb`. -/
def db_no_reserved (databases : databases_t) : Bool :=
  databases.all (fun p =>
    match p.2 with
    | .present y => y.name.value != "rethinkdb"
    | .deleted => true)

/-- A record found Present by `search_metadata_by_uuid` in a map without
the reserved name does not carry the reserved name. -/
theorem search_name_not_reserved (databases : databases_t) (id : Nat)
    (x : database_semilattice_metadata_t)
    (hs : search_metadata_by_uuid databases id = some x)
    (h : db_no_reserved databases = true) :
    (x.name.value != "rethinkdb") = true := by
  unfold search_metadata_by_uuid db_lookup at hs
  cases hf : databases.find? (fun p => p.1 == id) with
  | none => rw [hf] at hs; simp at hs
  | some p =>
    rw [hf] at hs
    simp only [Option.map_some'] at hs
    have hmem : p ∈ databases := List.mem_of_find?_eq_some hf
    have hall := List.all_eq_true.mp h p hmem
    cases hd : p.2 with
    | present y =>
      rw [hd] at hs hall
      cases hs
      exact hall
    | deleted => rw [hd] at hs; simp at hs

/-- Pointwise updates whose result entries never carry the reserved name
preserve `db_no_reserved`. -/
theorem db_no_reserved_db_update (databases : databases_t) (id : Nat)
    (f : deletable_t database_semilattice_metadata_t →
         deletable_t database_semilattice_metadata_t)
    (h : db_no_reserved databases = true)
    (hf : ∀ d, (match f d with
                | .present y => y.name.value != "rethinkdb"
                | .deleted => true) = true) :
    db_no_reserved (db_update databases id f) = true := by
  simp only [db_no_reserved, db_update, List.all_map, List.all_eq_true,
    Function.comp] at h ⊢
  intro p hp
  by_cases hk : (p.1 == id) = true
  · simp only [hk, if_true]
    exact hf p.2
  · simp only [hk, if_false, Bool.false_eq_true]
    · exact h p hp

/-- Appending a Present record whose name is not reserved preserves
`db_no_reserved`. -/
theorem db_no_reserved_append (databases : databases_t) (id : Nat)
    (y : database_semilattice_metadata_t)
    (h : db_no_reserved databases = true)
    (hy : (y.name.value != "rethinkdb") = true) :
    db_no_reserved (databases ++ [(id, .present y)]) = true := by
  simp only [db_no_reserved, List.all_append, Bool.and_eq_true] at h ⊢
  refine ⟨h, ?_⟩
  simp [hy]

/-- Any `write_row` call that returns normally preserves the absence of
the reserved name among Present records. -/
theorem write_row_preserves_db_no_reserved (drop : drop_outcome_t)
    (databases : databases_t) (primary_key : datum_t) (ag : Bool)
    (v : Option datum_t) (r : write_result_t)
    (hw : write_row drop databases primary_key ag v = .ok r)
    (h : db_no_reserved databases = true) :
    db_no_reserved r.databases = true := by
  unfold write_row at hw
  cases v with
  | none =>
    simp only at hw
    cases hs : search_metadata_by_uuid databases
        (resolve_primary_key primary_key) with
    | none =>
      rw [hs] at hw
      simp only [outcome_t.ok.injEq] at hw
      subst hw
      exact h
    | some x =>
      rw [hs] at hw
      cases ag with
      | true => simp at hw
      | false =>
        simp only [Bool.false_eq_true, if_false] at hw
        cases drop with
        | interrupted => simp at hw
        | failure e =>
          simp only [outcome_t.ok.injEq] at hw
          subst hw
          exact h
        | success =>
          simp only [outcome_t.ok.injEq] at hw
          subst hw
          dsimp only
          unfold db_drop_uuid_effect
          refine db_no_reserved_db_update databases _ _ h ?_
          intro d
          rfl
  | some vd =>
    simp only at hw
    cases hc : convert_db_config_and_name_from_datum vd with
    | error e =>
      rw [hc] at hw
      simp only [outcome_t.ok.injEq] at hw
      subst hw
      exact h
    | ok p =>
      obtain ⟨n, i⟩ := p
      simp only [hc] at hw
      by_cases hid : i ≠ resolve_primary_key primary_key
      · rw [if_pos hid] at hw; simp at hw
      · rw [if_neg hid] at hw
        cases hs : search_metadata_by_uuid databases
            (resolve_primary_key primary_key) with
        | some x =>
          rw [hs] at hw
          cases ag with
          | true => simp at hw
          | false =>
            simp only [Bool.false_eq_true, if_false] at hw
            by_cases hn : n ≠ x.name.value
            · rw [if_pos hn] at hw
              by_cases hr : n = "rethinkdb"
              · rw [if_pos hr] at hw
                simp only [outcome_t.ok.injEq] at hw
                subst hw
                exact h
              · rw [if_neg hr] at hw
                by_cases hiu : db_name_in_use databases n = true
                · rw [if_pos hiu] at hw
                  simp only [outcome_t.ok.injEq] at hw
                  subst hw
                  exact h
                · rw [if_neg hiu] at hw
                  simp only [outcome_t.ok.injEq] at hw
                  subst hw
                  dsimp only
                  refine db_no_reserved_db_update databases _ _ h ?_
                  intro d
                  cases d with
                  | present y => simpa using hr
                  | deleted => rfl
            · rw [if_neg hn] at hw
              simp only [outcome_t.ok.injEq] at hw
              subst hw
              dsimp only
              push_neg at hn
              refine db_no_reserved_db_update databases _ _ h ?_
              intro d
              cases d with
              | present y =>
                subst hn
                exact search_name_not_reserved databases _ x hs h
              | deleted => rfl
        | none =>
          rw [hs] at hw
          cases ag with
          | false => simp only [Bool.not_false, if_true,
              outcome_t.ok.injEq] at hw; subst hw; exact h
          | true =>
            simp only [Bool.not_true, Bool.false_eq_true, if_false] at hw
            by_cases hcnt : db_count databases
                (resolve_primary_key primary_key) ≠ 0
            · rw [if_pos hcnt] at hw; simp at hw
            · rw [if_neg hcnt] at hw
              by_cases hr : n = "rethinkdb"
              · rw [if_pos hr] at hw
                simp only [outcome_t.ok.injEq] at hw
                subst hw
                exact h
              · rw [if_neg hr] at hw
                by_cases hiu : db_name_in_use databases n = true
                · rw [if_pos hiu] at hw
                  simp only [outcome_t.ok.injEq] at hw
                  subst hw
                  exact h
                · rw [if_neg hiu] at hw
                  simp only [outcome_t.ok.injEq] at hw
                  subst hw
                  exact db_no_reserved_append databases _ _ h (by simpa using hr)

/-- C4: the reserved name `rethinkdb` is rejected with a context-specific
recoverable error — one message for a creation, one for a rename —
whatever the prior state of the map, leaving the map unchanged; and no
normal `write_row` return ever introduces the reserved name among
Present records. -/
theorem write_row_reserved_name :
    (∀ (drop : drop_outcome_t) (databases : databases_t)
       (primary_key v : datum_t),
       convert_db_config_and_name_from_datum v =
         .ok ("rethinkdb", resolve_primary_key primary_key) →
       search_metadata_by_uuid databases
         (resolve_primary_key primary_key) = none →
       db_count databases (resolve_primary_key primary_key) = 0 →
       write_row drop databases primary_key true (some v) =
         .ok ⟨false,
              some ⟨"Database `rethinkdb` already exists.",
                    query_state_t.failed⟩,
              databases⟩) ∧
    (∀ (drop : drop_outcome_t) (databases : databases_t)
       (primary_key v : datum_t) (x : database_semilattice_metadata_t),
       convert_db_config_and_name_from_datum v =
         .ok ("rethinkdb", resolve_primary_key primary_key) →
       search_metadata_by_uuid databases
         (resolve_primary_key primary_key) = some x →
       x.name.value ≠ "rethinkdb" →
       write_row drop databases primary_key false (some v) =
         .ok ⟨false,
              some ⟨"Cannot rename database `" ++ x.name.value ++
                    "` to `rethinkdb` because database " ++
                    "`rethinkdb` already exists.",
                    query_state_t.failed⟩,
              databases⟩) ∧
    (∀ (drop : drop_outcome_t) (databases : databases_t)
       (primary_key : datum_t) (ag : Bool) (v : Option datum_t)
       (r : write_result_t),
       write_row drop databases primary_key ag v = .ok r →
       db_no_reserved databases = true →
       db_no_reserved r.databases = true) := by
  refine ⟨?_, ?_, write_row_preserves_db_no_reserved⟩
  · intro drop databases primary_key v h1 h2 h3
    simp [write_row, h1, h2, h3]
  · intro drop databases primary_key v x h1 h2 h3
    have h3' : "rethinkdb" ≠ x.name.value := fun he => h3 he.symm
    simp [write_row, h1, h2, h3']

/-- Witness for C4: creating a database named `rethinkdb` on the empty
map fails with the creation message; renaming `alpha` of `db_alpha` to
`rethinkdb` fails with the rename message; and the successful creation
of `beta` on the empty map preserves the absence of the reserved
name. -/
theorem write_row_reserved_name_witness :
    write_row .success [] (.str "5") true
      (some (.obj [("name", .str "rethinkdb"), ("id", .str "5")])) =
      .ok ⟨false,
           some ⟨"Database `rethinkdb` already exists.",
                 query_state_t.failed⟩,
           []⟩ ∧
    write_row .success db_alpha (.str "1") false
      (some (.obj [("name", .str "rethinkdb"), ("id", .str "1")])) =
      .ok ⟨false,
           some ⟨"Cannot rename database `" ++ "alpha" ++
                 "` to `rethinkdb` because database " ++
                 "`rethinkdb` already exists.",
                 query_state_t.failed⟩,
           db_alpha⟩ ∧
    db_no_reserved [(5, .present ⟨⟨"beta", 0⟩⟩)] = true := by
  refine ⟨?_, ?_, ?_⟩
  · exact write_row_reserved_name.1 .success [] (.str "5")
      (.obj [("name", .str "rethinkdb"), ("id", .str "5")])
      rfl (by decide) (by decide)
  · exact write_row_reserved_name.2.1 .success db_alpha (.str "1")
      (.obj [("name", .str "rethinkdb"), ("id", .str "1")]) ⟨⟨"alpha", 0⟩⟩
      rfl (by decide) (by decide)
  · exact write_row_reserved_name.2.2 .success [] (.str "5") true
      (some (.obj [("name", .str "beta"), ("id", .str "5")]))
      ⟨true, none, [(5, .present ⟨⟨"beta", 0⟩⟩)]⟩ (by rfl) (by decide)

/-- A primary key that fails to parse resolves to the nil UUID
(lines 103-107 and 131-135 of db_config.cc). -/
theorem resolve_primary_key_error (pk : datum_t) (e : admin_err_t)
    (h : convert_uuid_from_datum pk = .error e) :
    resolve_primary_key pk = nil_uuid := by
  unfold resolve_primary_key
  rw [h]

/-- A primary key that parses resolves to the parsed identifier. -/
theorem resolve_primary_key_ok (pk : datum_t) (u : Nat)
    (h : convert_uuid_from_datum pk = .ok u) :
    resolve_primary_key pk = u := by
  unfold resolve_primary_key
  rw [h]

/-- An identifier mapped to a Tombstone is not found Present. -/
theorem search_metadata_by_uuid_deleted (databases : databases_t) (u : Nat)
    (h : db_lookup databases u = some .deleted) :
    search_metadata_by_uuid databases u = none := by
  unfold search_metadata_by_uuid
  rw [h]

/-- The databases map holding a Present record named `alpha` under the
nil UUID, reachable from the empty map by one auto-generated creation
whose primary key is the nil UUID's textual encoding. -/
def db_nil : databases_t := [(nil_uuid, .present ⟨⟨"alpha", 0⟩⟩)]

/-- C6 counterexample: an unparseable primary key is not always reported
as "row not found".  The nil identifier can come to hold a Present
record through the public write path (first conjunct: an auto-generated
creation under the nil UUID's encoding produces `db_nil` from the empty
map); the primary key `null` fails to parse (second conjunct); yet
`read_row` on `db_nil` with that unparseable key returns the nil
record's row rather than absent (third and fourth conjuncts). -/
theorem read_row_unparseable_key_not_absent :
    write_row .success [] (.str "") true
      (some (.obj [("name", .str "alpha"), ("id", .str "")])) =
      .ok ⟨true, none, db_nil⟩ ∧
    convert_uuid_from_datum .null =
      .error ⟨"Expected a UUID; got a non-string datum.",
              query_state_t.failed⟩ ∧
    read_row db_nil .null =
      some (convert_db_config_and_name_to_datum "alpha" nil_uuid) ∧
    read_row db_nil .null ≠ none := by
  refine ⟨by rfl, by rfl, by rfl, ?_⟩
  intro hnone
  have he : read_row db_nil .null =
      some (convert_db_config_and_name_to_datum "alpha" nil_uuid) := rfl
  rw [he] at hnone
  exact Option.noConfusion hnone

/-- C6 amended: `read_row` always succeeds; an unparseable primary key
is resolved to the nil identifier, so it yields absent exactly when the
nil identifier holds no Present record (and otherwise that record's
row); a parseable key yields absent when its identifier is unmapped or
mapped to a Tombstone, and the projected row when it is Present. -/
theorem read_row_cases :
    (∀ (databases : databases_t) (pk : datum_t) (e : admin_err_t),
       convert_uuid_from_datum pk = .error e →
       search_metadata_by_uuid databases nil_uuid = none →
       read_row databases pk = none) ∧
    (∀ (databases : databases_t) (pk : datum_t) (e : admin_err_t)
       (x : database_semilattice_metadata_t),
       convert_uuid_from_datum pk = .error e →
       search_metadata_by_uuid databases nil_uuid = some x →
       read_row databases pk =
         some (convert_db_config_and_name_to_datum x.name.value nil_uuid)) ∧
    (∀ (databases : databases_t) (pk : datum_t) (u : Nat),
       convert_uuid_from_datum pk = .ok u →
       search_metadata_by_uuid databases u = none →
       read_row databases pk = none) ∧
    (∀ (databases : databases_t) (pk : datum_t) (u : Nat),
       convert_uuid_from_datum pk = .ok u →
       db_lookup databases u = some .deleted →
       read_row databases pk = none) ∧
    (∀ (databases : databases_t) (pk : datum_t) (u : Nat)
       (x : database_semilattice_metadata_t),
       convert_uuid_from_datum pk = .ok u →
       search_metadata_by_uuid databases u = some x →
       read_row databases pk =
         some (convert_db_config_and_name_to_datum x.name.value u)) := by
  refine ⟨?_, ?_, ?_, ?_, ?_⟩
  · intro databases pk e h1 h2
    unfold read_row
    rw [resolve_primary_key_error pk e h1, h2]
  · intro databases pk e x h1 h2
    unfold read_row
    rw [resolve_primary_key_error pk e h1, h2]
  · intro databases pk u h1 h2
    unfold read_row
    rw [resolve_primary_key_ok pk u h1, h2]
  · intro databases pk u h1 h2
    unfold read_row
    rw [resolve_primary_key_ok pk u h1,
      search_metadata_by_uuid_deleted databases u h2]
  · intro databases pk u x h1 h2
    unfold read_row
    rw [resolve_primary_key_ok pk u h1, h2]

/-- Witness for the amended C6: on `db_alpha`, the unparseable key `zz`
reads absent (nil unmapped), the unmapped key `7` reads absent, the key
`1` reads the `alpha` row, and on a map with only a Tombstone under `1`
the key `1` reads absent. -/
theorem read_row_cases_witness :
    read_row db_alpha (.str "zz") = none ∧
    read_row db_alpha (.str "7") = none ∧
    read_row db_alpha (.str "1") =
      some (convert_db_config_and_name_to_datum "alpha" 1) ∧
    read_row [(1, .deleted)] (.str "1") = none :=
  ⟨read_row_cases.1 db_alpha (.str "zz")
     ⟨"Expected a UUID; got `zz`.", query_state_t.failed⟩ rfl (by decide),
   read_row_cases.2.2.1 db_alpha (.str "7") 7 rfl (by decide),
   read_row_cases.2.2.2.2 db_alpha (.str "1") 1 ⟨⟨"alpha", 0⟩⟩ rfl
     (by decide),
   read_row_cases.2.2.2.1 [(1, .deleted)] (.str "1") 1 rfl (by decide)⟩

/-- C10: both operations resolve every unparseable primary key to the
single nil UUID: any two unparseable keys give identical `read_row`
results and identical `write_row` results (for every state, flag, new
value and collaborator behaviour), and when the nil identifier holds a
Present record, `read_row` with any unparseable key returns that
record's row instead of absent. -/
theorem unparseable_keys_alias_to_nil :
    (∀ (databases : databases_t) (k1 k2 : datum_t) (e1 e2 : admin_err_t),
       convert_uuid_from_datum k1 = .error e1 →
       convert_uuid_from_datum k2 = .error e2 →
       read_row databases k1 = read_row databases k2) ∧
    (∀ (drop : drop_outcome_t) (databases : databases_t)
       (k1 k2 : datum_t) (ag : Bool) (v : Option datum_t)
       (e1 e2 : admin_err_t),
       convert_uuid_from_datum k1 = .error e1 →
       convert_uuid_from_datum k2 = .error e2 →
       write_row drop databases k1 ag v =
         write_row drop databases k2 ag v) ∧
    (∀ (databases : databases_t) (k : datum_t) (e : admin_err_t)
       (x : database_semilattice_metadata_t),
       convert_uuid_from_datum k = .error e →
       search_metadata_by_uuid databases nil_uuid = some x →
       read_row databases k =
         some (convert_db_config_and_name_to_datum x.name.value nil_uuid)) := by
  refine ⟨?_, ?_, ?_⟩
  · intro databases k1 k2 e1 e2 h1 h2
    unfold read_row
    rw [resolve_primary_key_error k1 e1 h1, resolve_primary_key_error k2 e2 h2]
  · intro drop databases k1 k2 ag v e1 e2 h1 h2
    unfold write_row
    rw [resolve_primary_key_error k1 e1 h1, resolve_primary_key_error k2 e2 h2]
  · intro databases k e x h1 h2
    unfold read_row
    rw [resolve_primary_key_error k e h1, h2]

/-- Witness for C10: the distinct unparseable keys `zz` and `null` give
the same `read_row` and `write_row` results on `db_nil`, and reading
`db_nil` with the unparseable key `zz` returns the nil record's row. -/
theorem unparseable_keys_alias_to_nil_witness :
    read_row db_nil (.str "zz") = read_row db_nil .null ∧
    write_row .success db_nil (.str "zz") false none =
      write_row .success db_nil .null false none ∧
    read_row db_nil (.str "zz") =
      some (convert_db_config_and_name_to_datum "alpha" nil_uuid) :=
  ⟨unparseable_keys_alias_to_nil.1 db_nil (.str "zz") .null
     ⟨"Expected a UUID; got `zz`.", query_state_t.failed⟩
     ⟨"Expected a UUID; got a non-string datum.", query_state_t.failed⟩
     rfl rfl,
   unparseable_keys_alias_to_nil.2.1 .success db_nil (.str "zz") .null
     false none
     ⟨"Expected a UUID; got `zz`.", query_state_t.failed⟩
     ⟨"Expected a UUID; got a non-string datum.", query_state_t.failed⟩
     rfl rfl,
   unparseable_keys_alias_to_nil.2.2 db_nil (.str "zz")
     ⟨"Expected a UUID; got `zz`.", query_state_t.failed⟩ ⟨⟨"alpha", 0⟩⟩
     rfl (by decide)⟩

/-- A decimal digit value maps to a digit character whose code point is
48 plus the digit. -/
theorem toNat_digit_char (d : Nat) (hd : d < 10) :
    (Char.ofNat (48 + d)).toNat = 48 + d := by
  interval_cases d <;> decide

/-- Digit characters produced by the identifier codec pass the
all-digits guard of `string_to_uuid`. -/
theorem is_digit_char_of_lt (d : Nat) (hd : d < 10) :
    is_digit_char (Char.ofNat (48 + d)) = true := by
  interval_cases d <;> decide

/-- The identifier codec round-trips: parsing the textual encoding of an
identifier yields the identifier back. -/
theorem string_to_uuid_uuid_to_string (u : Nat) :
    string_to_uuid (uuid_to_string u) = some u := by
  unfold string_to_uuid uuid_to_string
  have hlt : ∀ d ∈ (Nat.digits 10 u).reverse, d < 10 := by
    intro d hd
    exact Nat.digits_lt_base (by norm_num) (List.mem_reverse.mp hd)
  have hdata : (String.mk ((Nat.digits 10 u).reverse.map
      (fun d => Char.ofNat (48 + d)))).data =
      (Nat.digits 10 u).reverse.map (fun d => Char.ofNat (48 + d)) := rfl
  rw [hdata]
  have hall : ((Nat.digits 10 u).reverse.map
      (fun d => Char.ofNat (48 + d))).all is_digit_char = true := by
    rw [List.all_eq_true]
    intro c hc
    obtain ⟨d, hd, hcd⟩ := List.mem_map.mp hc
    subst hcd
    exact is_digit_char_of_lt d (hlt d hd)
  rw [if_pos hall]
  have hback : ((Nat.digits 10 u).reverse.map
      (fun d => Char.ofNat (48 + d))).map (fun c => c.toNat - 48) =
      (Nat.digits 10 u).reverse := by
    rw [List.map_map]
    have : ∀ l : List Nat, (∀ d ∈ l, d < 10) →
        l.map ((fun c : Char => c.toNat - 48) ∘ (fun d => Char.ofNat (48 + d)))
          = l := by
      intro l
      induction l with
      | nil => intro _; rfl
      | cons a t ih =>
        intro hl
        have ha : a < 10 := hl a (List.mem_cons_self a t)
        simp only [List.map_cons, Function.comp]
        rw [toNat_digit_char a ha]
        rw [ih (fun d hd => hl d (List.mem_cons_of_mem a hd))]
        simp
    exact this _ hlt
  rw [hback, List.reverse_reverse, Nat.ofDigits_digits]

/-- Parsing a two-field row object whose name is valid and whose id
string parses yields the pair. -/
theorem convert_db_from_datum_pair (n su : String) (u : Nat)
    (hn : name_string_valid n = true) (hu : string_to_uuid su = some u) :
    convert_db_config_and_name_from_datum
      (.obj [("name", .str n), ("id", .str su)]) = .ok (n, u) := by
  have hc1 : convert_name_from_datum (.str n) "db name" = .ok n := by
    simp [convert_name_from_datum, hn]
  have hc2 : convert_uuid_from_datum (.str su) = .ok u := by
    simp [convert_uuid_from_datum, hu]
  simp only [convert_db_config_and_name_from_datum, obj_get, List.find?]
  simp only [List.all_cons, List.all_nil]
  simp
  rw [hc1, hc2]

/-- Parsing rejects any row object carrying a field whose key is neither
`name` nor `id`. -/
theorem convert_db_from_datum_rejects_extra
    (fields : List (String × datum_t)) (k : String) (d : datum_t)
    (hmem : (k, d) ∈ fields) (hk1 : k ≠ "name") (hk2 : k ≠ "id") :
    ∃ e, convert_db_config_and_name_from_datum (.obj fields) = .error e := by
  have hall : fields.all (fun p => p.1 == "name" || p.1 == "id") = false := by
    rw [List.all_eq_false]
    exact ⟨(k, d), hmem, by simp [hk1, hk2]⟩
  unfold convert_db_config_and_name_from_datum
  cases hg1 : obj_get fields "name" with
  | none =>
    exact ⟨⟨"expected a field named `name`", query_state_t.failed⟩,
           by simp [hg1]⟩
  | some nd =>
    cases hn : convert_name_from_datum nd "db name" with
    | error e =>
      exact ⟨⟨"In `name`: " ++ e.msg, e.query_state⟩, by simp [hg1, hn]⟩
    | ok nm =>
      cases hg2 : obj_get fields "id" with
      | none =>
        exact ⟨⟨"expected a field named `id`", query_state_t.failed⟩,
               by simp [hg1, hn, hg2]⟩
      | some idd =>
        cases hu : convert_uuid_from_datum idd with
        | error e =>
          exact ⟨⟨"In `id`: " ++ e.msg, e.query_state⟩,
                 by simp [hg1, hn, hg2, hu]⟩
        | ok uu =>
          exact ⟨⟨"unexpected key(s)", query_state_t.failed⟩,
                 by simp [hg1, hn, hg2, hu, hall]⟩

/-- C9: the row projection round-trips — converting a valid name and an
identifier to a row datum and parsing it back succeeds with the same
name and identifier — and parsing rejects any object datum carrying a
field other than exactly `id` and `name`. -/
theorem row_projection_roundtrip :
    (∀ (n : String) (u : Nat), name_string_valid n = true →
       convert_db_config_and_name_from_datum
         (convert_db_config_and_name_to_datum n u) = .ok (n, u)) ∧
    (∀ (fields : List (String × datum_t)) (k : String) (d : datum_t),
       (k, d) ∈ fields → k ≠ "name" → k ≠ "id" →
       ∃ e, convert_db_config_and_name_from_datum (.obj fields) =
         .error e) := by
  constructor
  · intro n u hn
    unfold convert_db_config_and_name_to_datum convert_name_to_datum
      convert_uuid_to_datum
    exact convert_db_from_datum_pair n (uuid_to_string u) u hn
      (string_to_uuid_uuid_to_string u)
  · exact convert_db_from_datum_rejects_extra

/-- Witness for C9: the name `alpha` and identifier 1 round-trip through
the row projection, and an object with an extra `extra` field is
rejected. -/
theorem row_projection_roundtrip_witness :
    name_string_valid "alpha" = true ∧
    convert_db_config_and_name_from_datum
      (convert_db_config_and_name_to_datum "alpha" 1) = .ok ("alpha", 1) ∧
    (∃ e, convert_db_config_and_name_from_datum
      (.obj [("name", .str "alpha"), ("id", .str "1"),
             ("extra", .null)]) = .error e) :=
  ⟨by decide,
   row_projection_roundtrip.1 "alpha" 1 (by decide),
   row_projection_roundtrip.2
     [("name", .str "alpha"), ("id", .str "1"), ("extra", .null)]
     "extra" .null (by simp) (by decide) (by decide)⟩
